import Mathlib

/-!
Verification of the expense-management frontend business core.

The TypeScript source is shallowly embedded: JS numbers that carry money
amounts become rationals, JS strings become Lean strings, TS string-enum
values (such as ExpenseStatus.PENDING_APPROVAL = "pending_approval")
become their underlying string constants, nullable values become Option,
thrown/awaited repository outcomes become Except, and Date values become
integer epoch-millisecond timestamps (a comparison on Date objects in JS
compares their epoch milliseconds).
-/

namespace ExpenseFE

/-! ## Business-rule constants (src/app/plugins/auth.client.ts, BUSINESS_RULES) -/

/-- BUSINESS_RULES.AUTO_APPROVAL_THRESHOLD = 1000000 (1M IDR). -/
def AUTO_APPROVAL_THRESHOLD : ℚ := 1000000

/-- BUSINESS_RULES.MAX_EXPENSE_AMOUNT = 100000000 (100M IDR). -/
def MAX_EXPENSE_AMOUNT : ℚ := 100000000

/-- BUSINESS_RULES.MIN_DESCRIPTION_LENGTH = 5. -/
def MIN_DESCRIPTION_LENGTH : Nat := 5

/-- BUSINESS_RULES.MAX_DESCRIPTION_LENGTH = 500. -/
def MAX_DESCRIPTION_LENGTH : Nat := 500

/-! ## Approval workflow (src/test/business/currency-formatting.test.ts)

The workflow object uses TS string literal types; roles and statuses are
embedded as the strings the source compares against. -/

namespace ApprovalWorkflow

/-- ApprovalWorkflow.determineApprovalStatus: amounts strictly below the
auto-approval threshold become auto_approved, everything else pending. -/
def determineApprovalStatus (amount : ℚ) : String :=
  if amount < AUTO_APPROVAL_THRESHOLD then "auto_approved" else "pending"

/-- ApprovalWorkflow.canApprove: admin always; manager only when the
expense amount is at or above the threshold; otherwise false. -/
def canApprove (userRole : String) (expenseAmount : ℚ) : Bool :=
  if userRole = "admin" then true
  else if userRole = "manager" ∧ expenseAmount ≥ AUTO_APPROVAL_THRESHOLD then true
  else false

/-- ApprovalWorkflow.requiresManagerApproval. -/
def requiresManagerApproval (amount : ℚ) : Bool :=
  amount ≥ AUTO_APPROVAL_THRESHOLD

end ApprovalWorkflow

/-! ## Form-validator approval predicate
(src/test/business/expense-validation.test.ts, ExpenseFormValidator) -/

namespace ExpenseFormValidator

/-- ExpenseFormValidator.requiresApproval: (this.formData.amount || 0) >=
AUTO_APPROVAL_THRESHOLD; a null amount coerces to 0 (and 0 is falsy, so
it also coerces to 0). -/
def requiresApproval (amount : Option ℚ) : Bool :=
  amount.getD 0 ≥ AUTO_APPROVAL_THRESHOLD

end ExpenseFormValidator

/-! ## Domain data model (src/app/plugins/auth.client.ts types; the
field-mapped snake_case-to-camelCase shape used by the services) -/

/-- Money value object. -/
structure Money where
  amount : ℚ
  currency : String
  deriving Repr, DecidableEq

/-- Domain expense as produced by transformApiExpense. Date-valued fields
hold epoch milliseconds. -/
structure Expense where
  id : String
  userId : Int
  amount : Money
  description : String
  category : String
  expenseStatus : String
  expenseDate : Int
  submittedAt : Int
  processedAt : Option Int
  createdAt : Int
  updatedAt : Int
  deriving Repr, DecidableEq

/-- Authenticated user held by the auth store (src/app/stores/auth.ts):
only the permission list matters to the getters modelled here. -/
structure AuthUser where
  id : String
  permissions : List String
  deriving Repr, DecidableEq

/-- Auth-store getter canApproveExpenses:
state.user?.permissions.includes(approve_expenses) || false. -/
def canApproveExpenses (user : Option AuthUser) : Bool :=
  (user.map (fun u => u.permissions.contains "approve_expenses")).getD false

/-! ## Approve/Reject affordances (src/app/pages/expenses/index.vue) -/

/-- canApproveExpense from the expenses page: pending-approval status,
approve permission, and amount at or above the threshold. -/
def canApproveExpense (authUser : Option AuthUser) (expense : Expense) : Bool :=
  expense.expenseStatus = "pending_approval" &&
  canApproveExpenses authUser &&
  expense.amount.amount ≥ AUTO_APPROVAL_THRESHOLD

/-- canRejectExpense from the expenses page (same body as
canApproveExpense in the source). -/
def canRejectExpense (authUser : Option AuthUser) (expense : Expense) : Bool :=
  expense.expenseStatus = "pending_approval" &&
  canApproveExpenses authUser &&
  expense.amount.amount ≥ AUTO_APPROVAL_THRESHOLD

/-! ## API boundary and transformApiExpense (the field-mapped expense
service; getExpenses, getExpenseById, createExpense, updateExpense,
approveExpense, rejectExpense and retryPayment all return
transformApiExpense of the raw API record) -/

/-- Raw API expense record as returned by the backend. Timestamp fields
are the ISO strings of the wire format. -/
structure ApiExpense where
  id : Int
  user_id : Int
  amount_idr : ℚ
  description : String
  category : String
  expense_status : String
  expense_date : String
  submitted_at : String
  processed_at : Option String
  created_at : String
  updated_at : String
  deriving Repr, DecidableEq

/-- transformApiExpense. The Date constructor applied to a wire timestamp
string is abstracted as the parseDate parameter (it plays no role in any
property proved here); the TS cast of expense_status to the string enum is
the identity at runtime. -/
def transformApiExpense (parseDate : String → Int) (apiExpense : ApiExpense) : Expense :=
  { id := toString apiExpense.id
    userId := apiExpense.user_id
    amount := { amount := apiExpense.amount_idr, currency := "IDR" }
    description := apiExpense.description
    category := apiExpense.category
    expenseStatus := apiExpense.expense_status
    expenseDate := parseDate apiExpense.expense_date
    submittedAt := parseDate apiExpense.submitted_at
    processedAt := apiExpense.processed_at.map parseDate
    createdAt := parseDate apiExpense.created_at
    updatedAt := parseDate apiExpense.updated_at }

/-- Raw list response from the backend. -/
structure ExpensesApiResponse where
  expenses : List ApiExpense
  limit : Nat
  offset : Nat
  deriving Repr, DecidableEq

/-- Domain list response of ExpenseService.getExpenses. -/
structure ExpenseListResponse where
  expenses : List Expense
  limit : Nat
  offset : Nat
  deriving Repr, DecidableEq

/-- ExpenseService.getExpenses result shaping: every raw expense in the
API response is mapped through transformApiExpense. -/
def getExpensesResult (parseDate : String → Int) (apiResponse : ExpensesApiResponse) :
    ExpenseListResponse :=
  { expenses := apiResponse.expenses.map (transformApiExpense parseDate)
    limit := apiResponse.limit
    offset := apiResponse.offset }

/-- Result shaping shared by getExpenseById, createExpense, updateExpense,
ApprovalService.approveExpense, ApprovalService.rejectExpense and
PaymentService.retryPayment: the raw API record is transformed. -/
def singleExpenseResult (parseDate : String → Int) (apiExpense : ApiExpense) : Expense :=
  transformApiExpense parseDate apiExpense

/-! ## Form validation (src/app/composables/useFormValidation.ts,
useExpenseFormValidation). Each rule list is evaluated in order and
validateField reports the first failing rule message; validateForm
evaluates every field of the form state. -/

/-- Uploaded receipt state attached to the form. -/
structure UploadedFileState where
  url : String
  filename : String
  uploadError : Option String
  deriving Repr, DecidableEq

/-- Expense form state of useExpenseFormValidation: description, amount,
category, expenseDate, receiptFile. -/
structure ExpenseFormState where
  description : String
  amount : Option ℚ
  category : String
  expenseDate : Option Int
  receiptFile : Option UploadedFileState
  deriving Repr, DecidableEq

/-- Clock context for the date rules: endOfToday is new Date() with
setHours(23,59,59,999); oneYearAgo is new Date() with
setFullYear(year - 1), both as epoch milliseconds. -/
structure Clock where
  endOfToday : Int
  oneYearAgo : Int
  deriving Repr, DecidableEq

/-- JS truthiness of an optional string (undefined and the empty string
are falsy). -/
def jsTruthy : Option String → Bool
  | none => false
  | some s => s ≠ ""

/-- Embedding of the JS String trim on the character list: drop leading
and trailing whitespace. -/
def trimChars (l : List Char) : List Char :=
  ((l.dropWhile Char.isWhitespace).reverse.dropWhile Char.isWhitespace).reverse

/-- Embedding of the JS String trim. -/
def jsTrim (s : String) : String := ⟨trimChars s.data⟩

/-- Description rules: required (trimmed nonempty), trimmed length at
least MIN_DESCRIPTION_LENGTH, raw length at most MAX_DESCRIPTION_LENGTH. -/
def validateDescriptionField (value : String) : Option String :=
  if ¬ ((jsTrim value).length > 0) then some "Description is required"
  else if ¬ ((jsTrim value).length ≥ MIN_DESCRIPTION_LENGTH) then
    some "Description must be at least 5 characters"
  else if ¬ (value.length ≤ MAX_DESCRIPTION_LENGTH) then
    some "Description must be less than 500 characters"
  else none

/-- First amount rule: value !== null, is a number, and is strictly
greater than 0. -/
def amountPositiveRule : Option ℚ → Bool
  | some a => a > 0
  | none => false

/-- Second amount rule: value === null or a number at most
MAX_EXPENSE_AMOUNT. -/
def amountWithinMaxRule : Option ℚ → Bool
  | some a => a ≤ MAX_EXPENSE_AMOUNT
  | none => true

/-- Amount rules evaluated in order, reporting the first failure. -/
def validateAmountField (value : Option ℚ) : Option String :=
  if ¬ amountPositiveRule value then
    some "Amount must be greater than 0"
  else if ¬ amountWithinMaxRule value then
    some "Amount must be less than 100.000.000"
  else none

/-- Category rule: required (trimmed nonempty). -/
def validateCategoryField (value : String) : Option String :=
  if ¬ ((jsTrim value).length > 0) then some "Category is required" else none

/-- Expense-date rules: required (a Date instance), not after the end of
today, and not before one year ago. -/
def validateExpenseDateField (clock : Clock) (value : Option Int) : Option String :=
  match value with
  | none => some "Expense date is required"
  | some d =>
    if ¬ (d ≤ clock.endOfToday) then some "Expense date cannot be in the future"
    else if ¬ (d ≥ clock.oneYearAgo) then
      some "Expense date cannot be more than 1 year ago"
    else none

/-- Receipt rule: an absent file is valid; a present upload state must
carry no error and truthy url and filename. -/
def validateReceiptFileField (value : Option UploadedFileState) : Option String :=
  match value with
  | none => none
  | some f =>
    if ¬ (¬ jsTruthy f.uploadError = true ∧ f.url ≠ "" ∧ f.filename ≠ "") then
      some "Receipt file upload failed or is incomplete"
    else none

/-- Per-field error map produced by running validateField on every field
of the form state. -/
structure FormErrors where
  description : Option String
  amount : Option String
  category : Option String
  expenseDate : Option String
  receiptFile : Option String
  deriving Repr, DecidableEq

/-- validateForm: validateField is applied to every field of the form
state (no short-circuiting across fields); the per-field error states are
collected. -/
def validateForm (clock : Clock) (f : ExpenseFormState) : FormErrors :=
  { description := validateDescriptionField f.description
    amount := validateAmountField f.amount
    category := validateCategoryField f.category
    expenseDate := validateExpenseDateField clock f.expenseDate
    receiptFile := validateReceiptFileField f.receiptFile }

/-- Boolean result of validateForm: true iff no field reported an error. -/
def validateFormIsValid (clock : Clock) (f : ExpenseFormState) : Bool :=
  (validateForm clock f).description = none
  && (validateForm clock f).amount = none
  && (validateForm clock f).category = none
  && (validateForm clock f).expenseDate = none
  && (validateForm clock f).receiptFile = none

/-- Number of fields of the form state carrying an error. -/
def FormErrors.count (e : FormErrors) : Nat :=
  (if e.description.isSome then 1 else 0)
  + (if e.amount.isSome then 1 else 0)
  + (if e.category.isSome then 1 else 0)
  + (if e.expenseDate.isSome then 1 else 0)
  + (if e.receiptFile.isSome then 1 else 0)

/-! ## Reject modal (src/app/components/expense/ExpenseActionModals.vue) -/

/-- Disabled guard of the reject confirmation button:
processing || !rejectionReason.trim(). -/
def rejectConfirmDisabled (processing : Bool) (rejectionReason : String) : Bool :=
  processing || jsTrim rejectionReason = ""

/-- handleReject: emits the confirm-reject event with the trimmed reason
only when the trimmed reason is truthy (nonempty); otherwise nothing is
emitted. -/
def handleReject (rejectionReason : String) : Option String :=
  if jsTrim rejectionReason ≠ "" then some (jsTrim rejectionReason) else none

/-! ## Client expense store (the useExpenses composable with
offset-based pagination) -/

/-- Category option loaded from the repository. -/
structure Category where
  id : String
  name : String
  deriving Repr, DecidableEq

/-- Pagination block of the composable state. -/
structure Pagination where
  limit : Nat
  offset : Nat
  total : Option Nat
  deriving Repr, DecidableEq

/-- Reactive state of useExpenses. -/
structure ExpenseState where
  expenses : List Expense
  currentExpense : Option Expense
  categories : List Category
  pagination : Pagination
  loading : Bool
  submitting : Bool
  error : Option String
  deriving Repr, DecidableEq

/-- Replace-in-list step used by approve, reject and retryPayment:
findIndex over ids followed by an index assignment, i.e. the first entry
whose id matches is replaced; when no entry matches (findIndex yields -1)
the list is untouched. -/
def listUpdate : List Expense → String → Expense → List Expense
  | [], _, _ => []
  | x :: xs, id, e => if x.id = id then e :: xs else x :: listUpdate xs id e

/-- Conditional replacement of currentExpense: replaced only when its id
matches (optional chaining on a null currentExpense yields no match). -/
def updateCurrent (cur : Option Expense) (id : String) (e : Expense) : Option Expense :=
  match cur with
  | some c => if c.id = id then some e else some c
  | none => none

/-- useExpenses.approveExpense as a state transformer over the single
awaited repository outcome. Try: clear error, await the call, splice the
returned record into the list and currentExpense. Catch: set the error
message and rethrow. Finally: submitting is reset. No second repository
call exists in the source. -/
def approveExpense (s : ExpenseState) (id : String)
    (repoResult : Except String Expense) : ExpenseState × Except String Expense :=
  match repoResult with
  | .ok approvedExpense =>
    ({ s with
        error := none
        expenses := listUpdate s.expenses id approvedExpense
        currentExpense := updateCurrent s.currentExpense id approvedExpense
        submitting := false },
     .ok approvedExpense)
  | .error msg =>
    ({ s with error := some msg, submitting := false }, .error msg)

/-- useExpenses.rejectExpense: identical state discipline to
approveExpense around the reject repository call. -/
def rejectExpense (s : ExpenseState) (id : String)
    (repoResult : Except String Expense) : ExpenseState × Except String Expense :=
  match repoResult with
  | .ok rejectedExpense =>
    ({ s with
        error := none
        expenses := listUpdate s.expenses id rejectedExpense
        currentExpense := updateCurrent s.currentExpense id rejectedExpense
        submitting := false },
     .ok rejectedExpense)
  | .error msg =>
    ({ s with error := some msg, submitting := false }, .error msg)

/-- useExpenses.retryPayment: identical state discipline around the
payment-retry repository call; the local record is only ever replaced by
the repository response. -/
def retryPayment (s : ExpenseState) (id : String)
    (repoResult : Except String Expense) : ExpenseState × Except String Expense :=
  match repoResult with
  | .ok updatedExpense =>
    ({ s with
        error := none
        expenses := listUpdate s.expenses id updatedExpense
        currentExpense := updateCurrent s.currentExpense id updatedExpense
        submitting := false },
     .ok updatedExpense)
  | .error msg =>
    ({ s with error := some msg, submitting := false }, .error msg)

/-! ## Repository-side payment-retry lifecycle -/

/-- Claim record at the lifecycle boundary, carrying the secondary
payment state. -/
structure ClaimRecord where
  status : String
  paymentStatus : String
  deriving Repr, DecidableEq

/-- Modelled from the spec: the Repository-side legality rule of the
payment-retry action is not implemented under src/ (the frontend only
issues the request); per the spec it requires paymentStatus = failed,
never changes status, and moves paymentStatus to processing while the
payment is reattempted. -/
def retryPaymentLifecycle (c : ClaimRecord) : Except String ClaimRecord :=
  if c.paymentStatus = "failed" then
    .ok { c with paymentStatus := "processing" }
  else
    .error "InvalidTransition"

/-! ## Helper lemmas -/

/-- Replacing the first id-matching entry by a record with the same
expenseStatus leaves the per-entry statuses of the list unchanged. -/
theorem listUpdate_map_expenseStatus (l : List Expense) (id : String) (e : Expense)
    (h : ∀ x ∈ l, x.id = id → e.expenseStatus = x.expenseStatus) :
    (listUpdate l id e).map Expense.expenseStatus = l.map Expense.expenseStatus := by
  induction l with
  | nil => rfl
  | cons x xs ih =>
    by_cases hx : x.id = id
    · have := h x (List.mem_cons_self x xs) hx
      simp [listUpdate, hx, this]
    · simp only [listUpdate, if_neg hx, List.map_cons]
      rw [ih (fun y hy hyid => h y (List.mem_cons_of_mem x hy) hyid)]

/-! ## Claim theorems -/

/-- C1: for every amount A, A < 1000000 gives initial status auto_approved
and A ≥ 1000000 gives pending; the boundary A = 1000000 is pending; and
requiresApproval A is true iff A ≥ 1000000. -/
theorem C1_threshold_determinism (A : ℚ) :
    (A < 1000000 → ApprovalWorkflow.determineApprovalStatus A = "auto_approved")
    ∧ (A ≥ 1000000 → ApprovalWorkflow.determineApprovalStatus A = "pending")
    ∧ ApprovalWorkflow.determineApprovalStatus 1000000 = "pending"
    ∧ (ExpenseFormValidator.requiresApproval (some A) = true ↔ A ≥ 1000000) := by
  refine ⟨fun h => ?_, fun h => ?_, ?_, ?_⟩
  · simp [ApprovalWorkflow.determineApprovalStatus, AUTO_APPROVAL_THRESHOLD, h]
  · simp [ApprovalWorkflow.determineApprovalStatus, AUTO_APPROVAL_THRESHOLD, not_lt.mpr h]
  · simp [ApprovalWorkflow.determineApprovalStatus, AUTO_APPROVAL_THRESHOLD]
  · simp [ExpenseFormValidator.requiresApproval, AUTO_APPROVAL_THRESHOLD, Option.getD]

/-- Witness for C1 at the concrete amounts 999999 and 1000000. -/
theorem C1_threshold_determinism_witness :
    ApprovalWorkflow.determineApprovalStatus 999999 = "auto_approved"
    ∧ ApprovalWorkflow.determineApprovalStatus 1000000 = "pending"
    ∧ ExpenseFormValidator.requiresApproval (some 1000000) = true :=
  ⟨(C1_threshold_determinism 999999).1 (by norm_num),
   (C1_threshold_determinism 1000000).2.1 (by norm_num),
   ((C1_threshold_determinism 1000000).2.2.2).mpr (by norm_num)⟩

/-- C2: the admin role may always transition regardless of amount, the
manager role exactly when the amount is at or above 1000000, the employee
role never; and the page-level decision ignores who submitted the claim
(changing userId never changes it) and is identical for approve and
reject. -/
theorem C2_authorization_matrix (amount : ℚ) :
    ApprovalWorkflow.canApprove "admin" amount = true
    ∧ (ApprovalWorkflow.canApprove "manager" amount = true ↔ amount ≥ 1000000)
    ∧ ApprovalWorkflow.canApprove "employee" amount = false
    ∧ (∀ (auth : Option AuthUser) (e : Expense) (uid : Int),
        canApproveExpense auth { e with userId := uid } = canApproveExpense auth e
        ∧ canRejectExpense auth { e with userId := uid } = canRejectExpense auth e) := by
  refine ⟨rfl, ?_, rfl, fun auth e uid => ⟨rfl, rfl⟩⟩
  simp [ApprovalWorkflow.canApprove, AUTO_APPROVAL_THRESHOLD]

/-- Witness for C2 at the concrete amounts 1000000 and 999999. -/
theorem C2_authorization_matrix_witness :
    ApprovalWorkflow.canApprove "admin" 999999 = true
    ∧ ApprovalWorkflow.canApprove "manager" 1000000 = true
    ∧ ApprovalWorkflow.canApprove "manager" 999999 = false
    ∧ ApprovalWorkflow.canApprove "employee" 1000000 = false := by
  refine ⟨(C2_authorization_matrix 999999).1,
          ((C2_authorization_matrix 1000000).2.1).mpr (by norm_num), ?_,
          (C2_authorization_matrix 1000000).2.2.1⟩
  have h := (C2_authorization_matrix (999999 : ℚ)).2.1
  by_contra hc
  have ht : ApprovalWorkflow.canApprove "manager" (999999 : ℚ) = true := by
    cases hb : ApprovalWorkflow.canApprove "manager" (999999 : ℚ) with
    | true => rfl
    | false => exact absurd hb hc
  exact absurd (h.mp ht) (by norm_num)

/-- C3: the payment-retry action is legal exactly when paymentStatus is
failed and never changes the approval status (Repository-side rule,
modelled from the spec); and the client retryPayment only requests the
reprocessing: it replaces local records solely by the repository response,
so whenever the response carries the status the stored claim already had,
every locally held status is unchanged. -/
theorem C3_retry_payment (c : ClaimRecord) (s : ExpenseState) (id : String) (resp : Expense)
    (hlist : ∀ x ∈ s.expenses, x.id = id → resp.expenseStatus = x.expenseStatus)
    (hcur : ∀ x, s.currentExpense = some x → x.id = id →
      resp.expenseStatus = x.expenseStatus) :
    ((∃ c2, retryPaymentLifecycle c = Except.ok c2) ↔ c.paymentStatus = "failed")
    ∧ (∀ c2, retryPaymentLifecycle c = Except.ok c2 →
        c2.status = c.status ∧ c2.paymentStatus = "processing")
    ∧ ((retryPayment s id (Except.ok resp)).1.expenses.map Expense.expenseStatus
        = s.expenses.map Expense.expenseStatus)
    ∧ ((retryPayment s id (Except.ok resp)).1.currentExpense.map Expense.expenseStatus
        = s.currentExpense.map Expense.expenseStatus) := by
  refine ⟨?_, ?_, ?_, ?_⟩
  · constructor
    · rintro ⟨c2, hc2⟩
      by_contra hps
      simp [retryPaymentLifecycle, hps] at hc2
    · intro hps
      exact ⟨{ c with paymentStatus := "processing" }, by simp [retryPaymentLifecycle, hps]⟩
  · intro c2 hc2
    by_cases hps : c.paymentStatus = "failed"
    · simp [retryPaymentLifecycle, hps] at hc2
      subst hc2
      exact ⟨rfl, rfl⟩
    · simp [retryPaymentLifecycle, hps] at hc2
  · exact listUpdate_map_expenseStatus s.expenses id resp hlist
  · cases hc : s.currentExpense with
    | none => simp [retryPayment, updateCurrent, hc]
    | some x =>
      by_cases hx : x.id = id
      · simp [retryPayment, updateCurrent, hc, hx, hcur x hc hx]
      · simp [retryPayment, updateCurrent, hc, hx]

/-- Witness for C3 on a concrete failed claim, a one-entry client list
and a status-preserving repository response. -/
theorem C3_retry_payment_witness :
    (∃ c2, retryPaymentLifecycle { status := "approved", paymentStatus := "failed" }
      = Except.ok c2)
    ∧ ((retryPayment
        { expenses := [{ id := "1", userId := 7,
                          amount := { amount := 2000000, currency := "IDR" },
                          description := "travel", category := "Travel",
                          expenseStatus := "approved", expenseDate := 0,
                          submittedAt := 0, processedAt := none,
                          createdAt := 0, updatedAt := 0 }],
          currentExpense := none, categories := [],
          pagination := { limit := 10, offset := 0, total := some 1 },
          loading := false, submitting := false, error := none }
        "1"
        (Except.ok { id := "1", userId := 7,
                     amount := { amount := 2000000, currency := "IDR" },
                     description := "travel", category := "Travel",
                     expenseStatus := "approved", expenseDate := 0,
                     submittedAt := 0, processedAt := some 5,
                     createdAt := 0, updatedAt := 5 })).1.expenses.map
        Expense.expenseStatus = ["approved"]) := by
  have h := C3_retry_payment
    { status := "approved", paymentStatus := "failed" }
    { expenses := [{ id := "1", userId := 7,
                      amount := { amount := 2000000, currency := "IDR" },
                      description := "travel", category := "Travel",
                      expenseStatus := "approved", expenseDate := 0,
                      submittedAt := 0, processedAt := none,
                      createdAt := 0, updatedAt := 0 }],
      currentExpense := none, categories := [],
      pagination := { limit := 10, offset := 0, total := some 1 },
      loading := false, submitting := false, error := none }
    "1"
    { id := "1", userId := 7,
      amount := { amount := 2000000, currency := "IDR" },
      description := "travel", category := "Travel",
      expenseStatus := "approved", expenseDate := 0,
      submittedAt := 0, processedAt := some 5,
      createdAt := 0, updatedAt := 5 }
    (by intro x hx hid; simp at hx; subst hx; rfl)
    (by intro x hx; simp at hx)
  exact ⟨h.1.mpr rfl, by rw [h.2.2.1]; rfl⟩

/-- C4: when the approve (or reject) repository call fails, the locally
held state is untouched except for the error message: the expenses list,
currentExpense, categories, pagination and loading flag are unchanged,
error is set to the message, and the typed error is rethrown as the
result of the single repository call. -/
theorem C4_transition_failure_frame (s : ExpenseState) (id msg : String) :
    (approveExpense s id (Except.error msg)).1.expenses = s.expenses
    ∧ (approveExpense s id (Except.error msg)).1.currentExpense = s.currentExpense
    ∧ (approveExpense s id (Except.error msg)).1.categories = s.categories
    ∧ (approveExpense s id (Except.error msg)).1.pagination = s.pagination
    ∧ (approveExpense s id (Except.error msg)).1.loading = s.loading
    ∧ (approveExpense s id (Except.error msg)).1.error = some msg
    ∧ (approveExpense s id (Except.error msg)).2 = Except.error msg
    ∧ (rejectExpense s id (Except.error msg)).1.expenses = s.expenses
    ∧ (rejectExpense s id (Except.error msg)).1.currentExpense = s.currentExpense
    ∧ (rejectExpense s id (Except.error msg)).1.error = some msg
    ∧ (rejectExpense s id (Except.error msg)).2 = Except.error msg :=
  ⟨rfl, rfl, rfl, rfl, rfl, rfl, rfl, rfl, rfl, rfl, rfl⟩

/-- Witness for C4 on a concrete state and error message. -/
theorem C4_transition_failure_frame_witness :
    (approveExpense
      { expenses := [], currentExpense := none, categories := [],
        pagination := { limit := 10, offset := 0, total := none },
        loading := false, submitting := true, error := none }
      "9" (Except.error "InvalidTransition")).1.error = some "InvalidTransition" :=
  (C4_transition_failure_frame
    { expenses := [], currentExpense := none, categories := [],
      pagination := { limit := 10, offset := 0, total := none },
      loading := false, submitting := true, error := none }
    "9" "InvalidTransition").2.2.2.2.2.1

/-- C5: validating the candidate with empty description, amount -1, empty
category and a future expense date yields exactly four field errors, one
each for description, amount, category and expenseDate, none for
receiptFile, and the form is reported invalid; validateForm evaluates
every field rather than stopping at the first invalid one. -/
theorem C5_validation_completeness (clock : Clock) (d : Int)
    (hd : clock.endOfToday < d) :
    (validateForm clock
      { description := "", amount := some (-1), category := "",
        expenseDate := some d, receiptFile := none }).description.isSome
    ∧ (validateForm clock
      { description := "", amount := some (-1), category := "",
        expenseDate := some d, receiptFile := none }).amount.isSome
    ∧ (validateForm clock
      { description := "", amount := some (-1), category := "",
        expenseDate := some d, receiptFile := none }).category.isSome
    ∧ (validateForm clock
      { description := "", amount := some (-1), category := "",
        expenseDate := some d, receiptFile := none }).expenseDate.isSome
    ∧ (validateForm clock
      { description := "", amount := some (-1), category := "",
        expenseDate := some d, receiptFile := none }).receiptFile = none
    ∧ (validateForm clock
      { description := "", amount := some (-1), category := "",
        expenseDate := some d, receiptFile := none }).count = 4
    ∧ validateFormIsValid clock
      { description := "", amount := some (-1), category := "",
        expenseDate := some d, receiptFile := none } = false := by
  have hdate : validateExpenseDateField clock (some d)
      = some "Expense date cannot be in the future" := by
    simp [validateExpenseDateField, not_le.mpr hd]
  have hdesc : validateDescriptionField "" = some "Description is required" := by decide
  have hamt : validateAmountField (some (-1)) = some "Amount must be greater than 0" := by
    decide
  have hcat : validateCategoryField "" = some "Category is required" := by decide
  have hrec : validateReceiptFileField none = none := rfl
  refine ⟨?_, ?_, ?_, ?_, rfl, ?_, ?_⟩
  · simp [validateForm, hdesc]
  · simp [validateForm, hamt]
  · simp [validateForm, hcat]
  · simp [validateForm, hdate]
  · simp [validateForm, FormErrors.count, hdesc, hamt, hcat, hdate, hrec]
  · simp [validateFormIsValid, validateForm, hcat]

/-- Witness for C5 at a concrete clock reading and a tomorrow date. -/
theorem C5_validation_completeness_witness :
    (validateForm { endOfToday := 0, oneYearAgo := -1000 }
      { description := "", amount := some (-1), category := "",
        expenseDate := some 1, receiptFile := none }).count = 4 :=
  (C5_validation_completeness { endOfToday := 0, oneYearAgo := -1000 } 1
    (by norm_num)).2.2.2.2.2.1

/-- C6: in the useExpenseFormValidation date path, an absent date fails,
a date strictly after the end of today fails, a date strictly before one
year ago fails, and every date between one year ago and the end of today
passes all three rules: the backdate window of this path is one year. -/
theorem C6_backdate_window (clock : Clock)
    (h : clock.oneYearAgo ≤ clock.endOfToday) :
    validateExpenseDateField clock none = some "Expense date is required"
    ∧ (∀ d : Int, clock.endOfToday < d →
        validateExpenseDateField clock (some d)
          = some "Expense date cannot be in the future")
    ∧ (∀ d : Int, d < clock.oneYearAgo →
        validateExpenseDateField clock (some d)
          = some "Expense date cannot be more than 1 year ago")
    ∧ (∀ d : Int, clock.oneYearAgo ≤ d → d ≤ clock.endOfToday →
        validateExpenseDateField clock (some d) = none) := by
  refine ⟨rfl, fun d hd => ?_, fun d hd => ?_, fun d h1 h2 => ?_⟩
  · simp [validateExpenseDateField, not_le.mpr hd]
  · have hle : d ≤ clock.endOfToday := le_trans (le_of_lt hd) h
    simp [validateExpenseDateField, hle, not_le.mpr hd]
  · simp [validateExpenseDateField, h1, h2]

/-- Witness for C6 at a concrete clock and concrete dates on each side of
the window. -/
theorem C6_backdate_window_witness :
    validateExpenseDateField { endOfToday := 100, oneYearAgo := -100 } (some 200)
      = some "Expense date cannot be in the future"
    ∧ validateExpenseDateField { endOfToday := 100, oneYearAgo := -100 } (some (-200))
      = some "Expense date cannot be more than 1 year ago"
    ∧ validateExpenseDateField { endOfToday := 100, oneYearAgo := -100 } (some 0)
      = none :=
  ⟨(C6_backdate_window { endOfToday := 100, oneYearAgo := -100 }
      (by norm_num)).2.1 200 (by norm_num),
   (C6_backdate_window { endOfToday := 100, oneYearAgo := -100 }
      (by norm_num)).2.2.1 (-200) (by norm_num),
   (C6_backdate_window { endOfToday := 100, oneYearAgo := -100 }
      (by norm_num)).2.2.2 0 (by norm_num) (by norm_num)⟩

/-- C7: a reject with an empty or whitespace-only reason never produces a
reject request: the confirmation control is disabled while the trimmed
reason is empty, handleReject emits nothing exactly when the trimmed
reason is empty, and every emitted reason is the nonempty trimmed input. -/
theorem C7_reject_requires_reason (processing : Bool) (reason : String) :
    (jsTrim reason = "" → rejectConfirmDisabled processing reason = true)
    ∧ (handleReject reason = none ↔ jsTrim reason = "")
    ∧ (∀ r, handleReject reason = some r → r = jsTrim reason ∧ r ≠ "") := by
  refine ⟨fun h => ?_, ?_, fun r hr => ?_⟩
  · simp [rejectConfirmDisabled, h]
  · constructor
    · intro h
      by_contra hne
      simp [handleReject, hne] at h
    · intro h
      simp [handleReject, h]
  · by_cases hne : jsTrim reason = ""
    · simp [handleReject, hne] at hr
    · simp [handleReject, hne] at hr
      exact ⟨hr.symm, hr ▸ hne⟩

/-- Witness for C7: a whitespace-only reason disables the control and a
padded reason emits its nonempty trim. -/
theorem C7_reject_requires_reason_witness :
    rejectConfirmDisabled false "   " = true
    ∧ handleReject "  valid reason  " = some "valid reason" := by
  constructor
  · exact (C7_reject_requires_reason false "   ").1 (by decide)
  · have h := (C7_reject_requires_reason false "  valid reason  ").2.1
    cases he : handleReject "  valid reason  " with
    | none => exact absurd (h.mp he) (by decide)
    | some r =>
      have hr := (C7_reject_requires_reason false "  valid reason  ").2.2 r he
      rw [hr.1]
      decide

/-- C8: the amount field is accepted exactly when the amount is a number
with 0 < amount ≤ 100000000; null, nonpositive values and values above
the cap are rejected, and the boundary 100000000 itself is accepted. -/
theorem C8_amount_bounds (a : ℚ) :
    (validateAmountField (some a) = none ↔ 0 < a ∧ a ≤ 100000000)
    ∧ validateAmountField none = some "Amount must be greater than 0"
    ∧ validateAmountField (some 100000000) = none
    ∧ (a ≤ 0 → validateAmountField (some a) = some "Amount must be greater than 0")
    ∧ (100000000 < a →
        validateAmountField (some a) = some "Amount must be less than 100.000.000") := by
  refine ⟨?_, rfl, ?_, fun h => ?_, fun h => ?_⟩
  · constructor
    · intro h
      by_cases h1 : a > 0
      · by_cases h2 : a ≤ MAX_EXPENSE_AMOUNT
        · exact ⟨h1, by simpa [MAX_EXPENSE_AMOUNT] using h2⟩
        · simp [validateAmountField, amountPositiveRule, amountWithinMaxRule, h1, h2] at h
      · simp [validateAmountField, amountPositiveRule, h1] at h
    · rintro ⟨h1, h2⟩
      simp [validateAmountField, amountPositiveRule, amountWithinMaxRule, h1,
        MAX_EXPENSE_AMOUNT, h2]
  · simp [validateAmountField, amountPositiveRule, amountWithinMaxRule,
      MAX_EXPENSE_AMOUNT]
  · simp [validateAmountField, amountPositiveRule, not_lt.mpr h]
  · have h1 : a > 0 := lt_trans (by norm_num) h
    simp [validateAmountField, amountPositiveRule, amountWithinMaxRule, h1,
      MAX_EXPENSE_AMOUNT, not_le.mpr h]

/-- Witness for C8 at the boundary 100000000 and the rejected inputs
null, 0 and 100000001. -/
theorem C8_amount_bounds_witness :
    validateAmountField (some 100000000) = none
    ∧ validateAmountField none = some "Amount must be greater than 0"
    ∧ validateAmountField (some 0) = some "Amount must be greater than 0"
    ∧ validateAmountField (some 100000001)
      = some "Amount must be less than 100.000.000" :=
  ⟨(C8_amount_bounds 1).2.2.1, (C8_amount_bounds 1).2.1,
   (C8_amount_bounds 0).2.2.2.1 (by norm_num),
   (C8_amount_bounds 100000001).2.2.2.2 (by norm_num)⟩

/-- C9: the approve and reject affordances compute the identical
predicate: pending-approval status, the approve_expenses permission, and
amount at or above 1000000; so a claim shows either both transition
buttons or neither. -/
theorem C9_approve_reject_identical (auth : Option AuthUser) (e : Expense) :
    canApproveExpense auth e = canRejectExpense auth e
    ∧ (canApproveExpense auth e = true ↔
        e.expenseStatus = "pending_approval"
        ∧ canApproveExpenses auth = true
        ∧ e.amount.amount ≥ 1000000) := by
  refine ⟨rfl, ?_⟩
  simp [canApproveExpense, AUTO_APPROVAL_THRESHOLD, and_assoc]

/-- Witness for C9 on a concrete pending expense and a manager user. -/
theorem C9_approve_reject_identical_witness :
    canApproveExpense (some { id := "u1", permissions := ["approve_expenses"] })
      { id := "1", userId := 7,
        amount := { amount := 2000000, currency := "IDR" },
        description := "travel", category := "Travel",
        expenseStatus := "pending_approval", expenseDate := 0,
        submittedAt := 0, processedAt := none, createdAt := 0, updatedAt := 0 }
    = canRejectExpense (some { id := "u1", permissions := ["approve_expenses"] })
      { id := "1", userId := 7,
        amount := { amount := 2000000, currency := "IDR" },
        description := "travel", category := "Travel",
        expenseStatus := "pending_approval", expenseDate := 0,
        submittedAt := 0, processedAt := none, createdAt := 0, updatedAt := 0 } :=
  (C9_approve_reject_identical (some { id := "u1", permissions := ["approve_expenses"] })
    { id := "1", userId := 7,
      amount := { amount := 2000000, currency := "IDR" },
      description := "travel", category := "Travel",
      expenseStatus := "pending_approval", expenseDate := 0,
      submittedAt := 0, processedAt := none, createdAt := 0, updatedAt := 0 }).1

/-- C10: every expense record produced at the repository boundary passes
through transformApiExpense, so its currency is IDR, its amount is the
amount_idr field verbatim, and its id is the string form of the numeric
API id; the list operation maps the transform over every raw record. -/
theorem C10_transform_invariant (parseDate : String → Int) (api : ApiExpense)
    (resp : ExpensesApiResponse) :
    (transformApiExpense parseDate api).amount.currency = "IDR"
    ∧ (transformApiExpense parseDate api).amount.amount = api.amount_idr
    ∧ (transformApiExpense parseDate api).id = toString api.id
    ∧ singleExpenseResult parseDate api = transformApiExpense parseDate api
    ∧ (∀ e ∈ (getExpensesResult parseDate resp).expenses,
        e.amount.currency = "IDR"
        ∧ ∃ a ∈ resp.expenses, e = transformApiExpense parseDate a) := by
  refine ⟨rfl, rfl, rfl, rfl, fun e he => ?_⟩
  simp only [getExpensesResult, List.mem_map] at he
  obtain ⟨a, ha, rfl⟩ := he
  exact ⟨rfl, a, ha, rfl⟩

/-- Witness for C10 on a concrete raw API record. -/
theorem C10_transform_invariant_witness :
    (transformApiExpense (fun _ => 0)
      { id := 42, user_id := 7, amount_idr := 2000000,
        description := "travel", category := "Travel",
        expense_status := "pending_approval", expense_date := "2025-01-01",
        submitted_at := "2025-01-01", processed_at := none,
        created_at := "2025-01-01", updated_at := "2025-01-01" }).amount.currency
      = "IDR"
    ∧ (transformApiExpense (fun _ => 0)
      { id := 42, user_id := 7, amount_idr := 2000000,
        description := "travel", category := "Travel",
        expense_status := "pending_approval", expense_date := "2025-01-01",
        submitted_at := "2025-01-01", processed_at := none,
        created_at := "2025-01-01", updated_at := "2025-01-01" }).id = "42" := by
  have h := C10_transform_invariant (fun _ => 0)
    { id := 42, user_id := 7, amount_idr := 2000000,
      description := "travel", category := "Travel",
      expense_status := "pending_approval", expense_date := "2025-01-01",
      submitted_at := "2025-01-01", processed_at := none,
      created_at := "2025-01-01", updated_at := "2025-01-01" }
    { expenses := [], limit := 10, offset := 0 }
  exact ⟨h.1, by rw [h.2.2.1]; rfl⟩

end ExpenseFE
